import Mathlib

/-!
Shallow embedding of the two client scripts of the repository
(`clients/httpx/main.py` and `clients/httpx/test_function.py`).

The scripts are CLI glue over an external x402 payment-client library:
they resolve configuration from environment variables, perform one GET
request through a payment-aware HTTP client, and print a diagnostic
report.  External collaborators (the library's default payment selector,
the settlement-header decoder `decode_x_payment_response`, the JSON
pretty-printer of Python's `json` module, the wallet account, and the
network itself) are modelled as explicit function parameters; everything
the repository itself computes (configuration checks, argument parsing,
parameter merging, URL encoding, header filtering, report formatting,
exit behaviour) is translated directly from the Python source.

A process run is abstracted as an `Outcome`: the ordered list of printed
lines (one entry per `print` call; a leading `\n` in a Python format
string becomes a separate `""` entry), the process exit status, and
whether the run reached the network request.
-/

/-- Python truthiness of an `os.getenv` result: `None` and the empty
string are falsy, every other string is truthy. -/
def pyTruthy : Option String → Bool
  | none => false
  | some s => !(s == "")

/-- Character-list prefix test (used to implement substring search). -/
def isPrefixCh : List Char → List Char → Bool
  | [], _ => true
  | _ :: _, [] => false
  | a :: as, b :: bs => a == b && isPrefixCh as bs

/-- Character-list substring test: does `pat` occur in `s`?
Mirrors Python's `pat in s`. -/
def containsCh (pat : List Char) : List Char → Bool
  | [] => isPrefixCh pat []
  | c :: rest => isPrefixCh pat (c :: rest) || containsCh pat rest

/-- String containment, Python's `pat in s`. -/
def strContains (s pat : String) : Bool :=
  containsCh pat.data s.data

/-- ASCII lowercasing of one character: Python's `str.lower` on the
ASCII range, which covers HTTP header names. -/
def lowerCh (c : Char) : Char :=
  if 65 ≤ c.toNat ∧ c.toNat ≤ 90 then Char.ofNat (c.toNat + 32) else c

/-- Python's `s.lower()` on ASCII strings. -/
def strLower (s : String) : String := String.mk (s.data.map lowerCh)

deriving instance DecidableEq for Except

/-- A single-quote character, used when rendering Python `repr` output. -/
def squote : String := String.singleton (Char.ofNat 39)

/-- The sixty-character separator `"=" * 60` printed by both scripts. -/
def sep60 : String := String.mk (List.replicate 60 (Char.ofNat 61))

/-- The header list of an HTTP response, in the order `headers.items()`
yields them. -/
abbrev Headers := List (String × String)

/-- The slice of an httpx response the scripts consume: final status
code, headers, and the body decoded as text. -/
structure HttpResponse where
  status_code : Nat
  headers : Headers
  body : String
deriving DecidableEq, Repr

/-- The structure `decode_x_payment_response` yields: the settlement
fields the scripts read with `.get(field, "N/A")`.  A `none` field is
one absent from the decoded mapping. -/
structure PaymentResponse where
  transaction : Option String
  network : Option String
  payer : Option String
deriving DecidableEq, Repr

/-- The environment variables the scripts read; `none` means the
variable is absent from the process environment. -/
structure ScriptEnv where
  private_key : Option String
  resource_server_url : Option String
  endpoint_path : Option String
  supabase_anon_key : Option String
  function_name : Option String
deriving DecidableEq, Repr

/-- An abstract process run: printed lines, exit status, and whether the
run reached the `client.get` network request. -/
structure Outcome where
  lines : List String
  exitCode : Nat
  networkCalled : Bool
deriving DecidableEq, Repr

/-- The result of the external `client.get` call inside the `try` block:
either an httpx response or a raised exception, abstracted to its
message string. -/
abbrev FetchResult := Except String HttpResponse

/-- The external `decode_x_payment_response`: either the decoded
settlement structure or a raised exception message. -/
abbrev SettlementDecoder := String → Except String PaymentResponse

/-- The external `json.loads` + `json.dumps(data, indent=2)` pipeline:
`some pretty` when the body parses as JSON, `none` when parsing raises. -/
abbrev JsonPretty := String → Option String

/-- `custom_payment_selector` from both scripts: ignores the
caller-supplied `network_filter` and delegates to the external
`x402Client.default_payment_requirements_selector` with the hardcoded
network `"base"`, passing `scheme_filter` and `max_value` through.  The
external default selector and the (opaque) types of payment
requirements, of the scheme filter, of the max value and of the
selection result are parameters. -/
def custom_payment_selector {Req Scheme MaxV Sel : Type}
    (default_payment_requirements_selector :
      List Req → String → Option Scheme → Option MaxV → Sel)
    (accepts : List Req) (network_filter : Option String)
    (scheme_filter : Option Scheme) (max_value : Option MaxV) : Sel :=
  let _ := network_filter
  default_payment_requirements_selector accepts "base" scheme_filter max_value

/-- The display line for one response header (`main.py` line 86 and
`test_function.py` line 173): values longer than 100 characters are cut
to their first 100 characters and suffixed with `"..."`. -/
def headerLine (k v : String) : String :=
  if v.length > 100 then "   " ++ k ++ ": " ++ v.take 100 ++ "..."
  else "   " ++ k ++ ": " ++ v

/-- The display condition of the header loop (`main.py` line 85):
`'payment' in key.lower() or 'x-' in key.lower()` — substring
containment, in both cases. -/
def headerShown (k : String) : Bool :=
  strContains (strLower k) "payment" || strContains (strLower k) "x-"

/-- The header loop of the report (`main.py` lines 84-88,
`test_function.py` lines 171-173): one display line per header whose
lowercased name contains `"payment"` or contains `"x-"`. -/
def headersReport : Headers → List String
  | [] => []
  | (k, v) :: rest =>
      (if headerShown k then [headerLine k v] else []) ++ headersReport rest

/-- The body section (`main.py` lines 91-96): pretty-printed JSON when
the body parses, otherwise the raw text truncated to 500 characters.
The local `try/except` around `json.loads` is the `Option` in
`JsonPretty`. -/
def bodyReport (jsonPretty : JsonPretty) (content : String) : List String :=
  match jsonPretty content with
  | some pretty => [pretty]
  | none => [content.take 500]

/-- The status classification of `main.py` lines 102-114: exactly one of
the three branches of the `if/elif/else` prints. -/
def classificationReport (status : Nat) : List String :=
  if status == 200 then
    ["✅ Payment verified successfully!",
     "   (x402HttpxClient automatically handled the payment flow)",
     "   - Received 402 Payment Required",
     "   - Generated payment authorization",
     "   - Sent request with X-PAYMENT header",
     "   - Received 200 OK with function result"]
  else if status == 402 then
    ["⚠️  Received 402 Payment Required",
     "   This means payment was not processed correctly",
     "   Check payment requirements and wallet balance"]
  else
    ["⚠️  Unexpected status code: " ++ toString status]

/-- Case-insensitive header lookup, like membership and indexing on
httpx `Headers` (`"X-Payment-Response" in response.headers` and
`response.headers["X-Payment-Response"]`). -/
def headerGet (hs : Headers) (name : String) : Option String :=
  (hs.find? (fun kv => strLower kv.fst == strLower name)).map Prod.snd

/-- The settlement confirmation block printed when decoding succeeds
(`main.py` lines 121-124): absent fields display as `"N/A"`. -/
def settlementLines (pr : PaymentResponse) : List String :=
  ["",
   "✅ Payment Settlement Confirmed:",
   "   Transaction: " ++ pr.transaction.getD "N/A",
   "   Network: " ++ pr.network.getD "N/A",
   "   Payer: " ++ pr.payer.getD "N/A"]

/-- The lines printed when no `X-Payment-Response` header is present
(`main.py` lines 126-128). -/
def noSettlementLines : List String :=
  ["",
   "⚠️  No X-Payment-Response header",
   "   Payment was verified but settlement header not present",
   "   (This is normal if settlement failed but verification passed)"]

/-- The `except` block of `main.py` lines 130-133 (identical in
`test_function.py` lines 210-213): the exception message is printed and
`traceback.print_exc()` emits the stack trace, modelled as a marker
line. -/
def errorLines (e : String) : List String :=
  ["", "❌ Error occurred: " ++ e, "<traceback.print_exc()>"]

/-- The settlement section of `main.py` lines 117-128: the block prints
whenever the header is present and decodes, independently of the status
code; a decoding exception aborts the section (it is caught by the
enclosing `except`, whose lines the caller appends). -/
def settlementSection (decoder : SettlementDecoder) (hs : Headers) :
    Except String (List String) :=
  match headerGet hs "X-Payment-Response" with
  | some v =>
      match decoder v with
      | .ok pr => .ok (settlementLines pr)
      | .error e => .error e
  | none => .ok noSettlementLines

/-- The prints of `main.py` lines 64-71, before the request is issued. -/
def preRequestLines (endpoint_path base_url addr : String) : List String :=
  ["🌐 Making request to: " ++ endpoint_path,
   "📡 Base URL: " ++ base_url,
   "🔐 Account: " ++ addr,
   "",
   sep60,
   "x402 Payment Flow:",
   sep60,
   "1. Initial request (expecting 402 Payment Required)..."]

/-- The report printed for a received response inside the `try` block of
`main.py` (lines 75-128), given the external JSON pretty-printer and
settlement decoder.  A decoding exception in the settlement section
falls through to the `except` block's lines. -/
def responseReport (jsonPretty : JsonPretty) (decoder : SettlementDecoder)
    (r : HttpResponse) : List String :=
  ["2. Response Status: " ++ toString r.status_code,
   "",
   "📋 Response Headers:"] ++
  headersReport r.headers ++
  ["", "📦 Response Body:"] ++
  bodyReport jsonPretty r.body ++
  ["", sep60, "X-PAYMENT Header Verification:", sep60] ++
  classificationReport r.status_code ++
  (match settlementSection decoder r.headers with
   | .ok ls => ls
   | .error e => errorLines e)

/-- The whole `try/except` of `main.py` lines 62-133: any exception
raised by the request itself (or by settlement decoding) ends in the
`except` block's printed lines, never in a propagated failure. -/
def mainTryBody (jsonPretty : JsonPretty) (decoder : SettlementDecoder)
    (endpoint_path base_url addr : String) (fetch : FetchResult) :
    List String :=
  preRequestLines endpoint_path base_url addr ++
  match fetch with
  | .error e => errorLines e
  | .ok r => responseReport jsonPretty decoder r

/-- The module-level configuration check of `main.py` line 17:
`all([private_key, base_url, endpoint_path])` under Python truthiness. -/
def configOk (env : ScriptEnv) : Bool :=
  pyTruthy env.private_key && pyTruthy env.resource_server_url
    && pyTruthy env.endpoint_path

/-- One run of `main.py`: the module-level check exits with status 1
before any client is built when a required variable is missing
(lines 17-19); otherwise the optional Authorization banner and the
account banner print, the request is attempted, and the process ends
normally with status 0 because the `except` block swallows every
exception of the request/response cycle. -/
def script1 (env : ScriptEnv) (jsonPretty : JsonPretty)
    (decoder : SettlementDecoder) (addr : String) (fetch : FetchResult) :
    Outcome :=
  if !configOk env then
    { lines := ["Error: Missing required environment variables"],
      exitCode := 1, networkCalled := false }
  else
    { lines :=
        (if pyTruthy env.supabase_anon_key then
           ["Using Authorization header with Supabase anon key"]
         else []) ++
        ["Initialized account: " ++ addr] ++
        mainTryBody jsonPretty decoder (env.endpoint_path.getD "")
          (env.resource_server_url.getD "") addr fetch,
      exitCode := 0, networkCalled := true }

/-- One entry of the static registry of `test_function.py`: description
and default query parameters, in the dict literal's insertion order. -/
structure FunctionConfig where
  description : String
  default_params : List (String × String)
deriving DecidableEq, Repr

/-- `FUNCTION_CONFIGS` from `test_function.py` lines 29-51, as an
ordered association list (Python dicts iterate in insertion order). -/
def FUNCTION_CONFIGS : List (String × FunctionConfig) :=
  [("toolzv4",
    { description := "IPv4 Network Connectivity Testing Tool",
      default_params :=
        [("target", "8.8.8.8"), ("count", "4"), ("timeout", "5000")] }),
   ("url-qr-code-generator",
    { description := "URL QR Code Generator",
      default_params := [("url", "https://example.com"), ("size", "200")] }),
   ("email-validator",
    { description :=
        "Email Validator - Validates email address format using RFC-style patterns",
      default_params := [("email", "user@example.com")] })]

/-- Registry lookup, Python's `function_name in FUNCTION_CONFIGS` /
`FUNCTION_CONFIGS[function_name]`. -/
def configLookup (name : String) : Option FunctionConfig :=
  (FUNCTION_CONFIGS.find? (fun kv => kv.fst == name)).map Prod.snd

/-- Python dict assignment `d[k] = v` on an insertion-ordered dict:
an existing key keeps its position and gets the new value, a new key is
appended. -/
def dictInsert (d : List (String × String)) (k v : String) :
    List (String × String) :=
  if d.any (fun kv => kv.fst == k) then
    d.map (fun kv => if kv.fst == k then (k, v) else kv)
  else d ++ [(k, v)]

/-- Python's `arg.split('=', 1)` guarded by `'=' in arg`, on character
lists: `none` when no `'='` occurs, otherwise the parts around the first
one. -/
def splitFirstEq : List Char → Option (List Char × List Char)
  | [] => none
  | c :: rest =>
      if c == '=' then some ([], rest)
      else
        match splitFirstEq rest with
        | some (a, b) => some (c :: a, b)
        | none => none

/-- `key, value = arg.split('=', 1)` on strings. -/
def splitEq (s : String) : Option (String × String) :=
  (splitFirstEq s.data).map (fun ab => (String.mk ab.fst, String.mk ab.snd))

/-- The `key=value` parsing loops of `parse_args` (`test_function.py`
lines 85-88 and 97-100): tokens without `'='` are skipped, later tokens
overwrite earlier keys in place. -/
def parseParams (args : List String) : List (String × String) :=
  args.foldl
    (fun d arg =>
      match splitEq arg with
      | some kv => dictInsert d kv.fst kv.snd
      | none => d)
    []

/-- Python's `{**defaults, **params}` (`test_function.py` line 116):
defaults in order, overridden in place, new keys appended in `params`
order. -/
def dictMerge (d e : List (String × String)) : List (String × String) :=
  e.foldl (fun acc kv => dictInsert acc kv.fst kv.snd) d

/-- Python `repr` of a string dict (as printed for default and merged
parameters), e.g. `\x7b'target': '8.8.8.8'\x7d`. -/
def dictRepr (ps : List (String × String)) : String :=
  "\x7b" ++
    String.intercalate ", "
      (ps.map (fun kv =>
        squote ++ kv.fst ++ squote ++ ": " ++ squote ++ kv.snd ++ squote)) ++
    "\x7d"

/-- Python `repr` of `list(FUNCTION_CONFIGS.keys())`. -/
def keysRepr : String :=
  "[" ++
    String.intercalate ", "
      (FUNCTION_CONFIGS.map (fun kv => squote ++ kv.fst ++ squote)) ++
    "]"

/-- Uppercase hexadecimal digit, as `urllib.parse.quote` emits. -/
def hexDigitCh (n : Nat) : Char :=
  if n < 10 then Char.ofNat (48 + n) else Char.ofNat (55 + n)

/-- A percent-encoded byte, e.g. `%2F`. -/
def percentByte (b : Nat) : String :=
  "%" ++ String.singleton (hexDigitCh (b / 16)) ++
    String.singleton (hexDigitCh (b % 16))

/-- UTF-8 encoding of a code point, as `quote_plus` encodes non-safe
characters byte by byte. -/
def utf8Bytes (n : Nat) : List Nat :=
  if n < 128 then [n]
  else if n < 2048 then [192 + n / 64, 128 + n % 64]
  else if n < 65536 then
    [224 + n / 4096, 128 + (n / 64) % 64, 128 + n % 64]
  else
    [240 + n / 262144, 128 + (n / 4096) % 64, 128 + (n / 64) % 64,
     128 + n % 64]

/-- The characters `urllib.parse.quote` never encodes (ASCII letters,
digits, `_.-~`). -/
def isUrlSafe (c : Char) : Bool :=
  c.isAlphanum || c == '_' || c == '.' || c == '-' || c == '~'

/-- `urllib.parse.quote_plus` with the default empty `safe` set: safe
characters pass through, a space becomes `+`, everything else is
percent-encoded byte by byte. -/
def quote_plus (s : String) : String :=
  String.join
    (s.data.map (fun c =>
      if isUrlSafe c then String.singleton c
      else if c == ' ' then "+"
      else String.join ((utf8Bytes c.toNat).map percentByte)))

/-- `urllib.parse.urlencode` over the merged parameters
(`test_function.py` line 119): `k=v` pairs joined by `&`, keys and
values `quote_plus`-encoded, in dict iteration order. -/
def urlencode (ps : List (String × String)) : String :=
  String.intercalate "&"
    (ps.map (fun kv => quote_plus kv.fst ++ "=" ++ quote_plus kv.snd))

/-- The endpoint path `test_function.py` line 120 builds. -/
def buildPath (function_name : String) (final_params : List (String × String)) :
    String :=
  "/functions/v1/" ++ function_name ++ "?" ++ urlencode final_params

/-- The usage message and registry dump of `parse_args`
(`test_function.py` lines 71-75), printed when no arguments are given. -/
def usageLines : List String :=
  ["Usage: python test_function.py <function_name> [param=value ...]",
   "",
   "Available functions:"] ++
  FUNCTION_CONFIGS.flatMap (fun kv =>
    ["  " ++ kv.fst ++ ": " ++ kv.snd.description,
     "    Default params: " ++ dictRepr kv.snd.default_params])

/-- The unknown-function message of `parse_args` (`test_function.py`
lines 92-93), printed when the first argument names no registered
function and no environment override is set. -/
def unknownArgLines (name : String) : List String :=
  ["Error: " ++ squote ++ name ++ squote ++ " is not a known function.",
   "Available functions: " ++ keysRepr]

/-- `parse_args` from `test_function.py` lines 66-102.  `fnEnv` is
`os.getenv('FUNCTION_NAME')`.  `Except` errors are the `sys.exit(1)`
paths with their printed lines; successes carry the selected function
name and the parsed `key=value` parameters.  With a truthy override the
override wins and every token is parsed as a parameter; without one the
first token selects the function and must be registered. -/
def parse_args (fnEnv : Option String) (args : List String) :
    Except (List String) (String × List (String × String)) :=
  match args with
  | [] => .error usageLines
  | a0 :: rest =>
      let function_name := if pyTruthy fnEnv then fnEnv.getD "" else a0
      if (configLookup function_name).isSome then
        .ok (function_name,
          parseParams (if pyTruthy fnEnv then a0 :: rest else rest))
      else if pyTruthy fnEnv then
        .ok (function_name, parseParams (a0 :: rest))
      else
        .error (unknownArgLines function_name)

/-- The status classification of `test_function.py` lines 188-195. -/
def classificationReport2 (status : Nat) : List String :=
  if status == 200 then
    ["✅ Payment verified successfully!",
     "   (x402HttpxClient automatically handled the payment flow)"]
  else if status == 402 then
    ["⚠️  Received 402 Payment Required",
     "   Payment was not processed correctly"]
  else
    ["⚠️  Unexpected status code: " ++ toString status]

/-- The lines of `test_function.py` lines 207-208, printed when no
`X-Payment-Response` header is present. -/
def noSettlementLines2 : List String :=
  ["",
   "⚠️  No X-Payment-Response header",
   "   (Payment verified but settlement header not present)"]

/-- The settlement section of `test_function.py` lines 198-208, sharing
the confirmation block of `main.py`. -/
def settlementSection2 (decoder : SettlementDecoder) (hs : Headers) :
    Except String (List String) :=
  match headerGet hs "X-Payment-Response" with
  | some v =>
      match decoder v with
      | .ok pr => .ok (settlementLines pr)
      | .error e => .error e
  | none => .ok noSettlementLines2

/-- The `try/except` of `test_function.py` lines 160-213. -/
def tryBody2 (jsonPretty : JsonPretty) (decoder : SettlementDecoder)
    (fetch : FetchResult) : List String :=
  match fetch with
  | .error e => errorLines e
  | .ok r =>
      ["2. Response Status: " ++ toString r.status_code,
       "",
       "📋 Response Headers:"] ++
      headersReport r.headers ++
      ["", "📦 Response Body:"] ++
      bodyReport jsonPretty r.body ++
      ["", sep60, "X-PAYMENT Header Verification:", sep60] ++
      classificationReport2 r.status_code ++
      (match settlementSection2 decoder r.headers with
       | .ok ls => ls
       | .error e => errorLines e)

/-- `test_function` from `test_function.py` lines 105-213.  An unknown
function name or a missing `PRIVATE_KEY` prints an error and `return`s —
the coroutine completes, so the process still exits with status 0 and no
network request is made.  Otherwise the banner prints and the request is
attempted, every exception being swallowed by the `except` block. -/
def test_function (env : ScriptEnv) (jsonPretty : JsonPretty)
    (decoder : SettlementDecoder) (addr : String) (fetch : FetchResult)
    (function_name : String) (params : List (String × String)) : Outcome :=
  match configLookup function_name with
  | none =>
      { lines := ["❌ Unknown function: " ++ function_name,
                  "Available functions: " ++ keysRepr],
        exitCode := 0, networkCalled := false }
  | some config =>
      let final_params := dictMerge config.default_params params
      let endpoint_path := buildPath function_name final_params
      let base_url :=
        if pyTruthy env.resource_server_url then
          env.resource_server_url.getD ""
        else "https://xluihnzwcmxybtygewvy.supabase.co"
      if !pyTruthy env.private_key then
        { lines := ["❌ Error: PRIVATE_KEY environment variable is required",
                    "Set it in .env file or environment"],
          exitCode := 0, networkCalled := false }
      else
        { lines :=
            ["🧪 Testing Function: " ++ function_name,
             "📝 Description: " ++ config.description,
             "🌐 Endpoint: " ++ endpoint_path,
             "📡 Base URL: " ++ base_url,
             "🔐 Account: " ++ addr,
             "📋 Parameters: " ++ dictRepr final_params,
             "",
             sep60,
             "x402 Payment Flow:",
             sep60,
             "1. Initial request (expecting 402 Payment Required)..."] ++
            tryBody2 jsonPretty decoder fetch,
          exitCode := 0, networkCalled := true }

/-- One run of `test_function.py` (the `__main__` block, line 216-218):
`parse_args` may exit with status 1; otherwise `test_function` runs to
completion and the process exits with status 0. -/
def script2 (env : ScriptEnv) (args : List String) (jsonPretty : JsonPretty)
    (decoder : SettlementDecoder) (addr : String) (fetch : FetchResult) :
    Outcome :=
  match parse_args env.function_name args with
  | .error ls => { lines := ls, exitCode := 1, networkCalled := false }
  | .ok fp => test_function env jsonPretty decoder addr fetch fp.fst fp.snd

/-! Concrete fixtures used to evaluate the model on explicit inputs.
The external collaborators are instantiated with simple total
behaviours: a JSON parser that always fails (raw-text fallback), a
settlement decoder returning a fixed structure with an absent `network`
field, a decoder that always raises, and a request that raises. -/

/-- A JSON pipeline on which parsing always raises (fallback branch). -/
def jp0 : JsonPretty := fun _ => none

/-- A settlement decoder returning a fixed structure whose `network`
field is absent. -/
def dec0 : SettlementDecoder :=
  fun _ => .ok { transaction := some "0xtx", network := none,
                 payer := some "0xpayer" }

/-- A settlement decoder that always raises. -/
def decBoom : SettlementDecoder := fun _ => .error "boom"

/-- A request that raises before yielding a response. -/
def fetchNone : FetchResult := .error "connection refused"

/-- An empty environment: every variable absent. -/
def envNone : ScriptEnv :=
  { private_key := none, resource_server_url := none, endpoint_path := none,
    supabase_anon_key := none, function_name := none }

/-- An environment with only the signing key set. -/
def envWithKey : ScriptEnv :=
  { private_key := some "0xkey", resource_server_url := none,
    endpoint_path := none, supabase_anon_key := none, function_name := none }

/-- An environment with all required variables of the first script set. -/
def envAll : ScriptEnv :=
  { private_key := some "0xkey", resource_server_url := some "https://h",
    endpoint_path := some "/f", supabase_anon_key := none,
    function_name := none }

/-- An environment whose `FUNCTION_NAME` override names no registered
function. -/
def envOverrideBogus : ScriptEnv :=
  { private_key := some "0xkey", resource_server_url := none,
    endpoint_path := none, supabase_anon_key := none,
    function_name := some "bogus" }

/-- A 402 response carrying a settlement header. -/
def r402settle : HttpResponse :=
  { status_code := 402, headers := [("X-Payment-Response", "blob")],
    body := "denied" }

/-- A 402 response without a settlement header. -/
def r402plain : HttpResponse :=
  { status_code := 402, headers := [("Content-Type", "application/json")],
    body := "denied" }

/-- A 200 response carrying a settlement header. -/
def r200settle : HttpResponse :=
  { status_code := 200, headers := [("X-Payment-Response", "blob")],
    body := "yes" }

/-- A 101-character string, longer than the display truncation limit. -/
def v101 : String := String.mk (List.replicate 101 'a')

/-- C1: for every requirement list, caller-supplied network filter,
scheme filter and max value, `custom_payment_selector` returns exactly
the selection of the external default selector invoked with the network
filter `"base"` and the other filters passed through; consequently its
result does not depend on the caller-supplied network filter. -/
theorem c1_selector_delegates_with_base {Req Scheme MaxV Sel : Type}
    (defaultSel : List Req → String → Option Scheme → Option MaxV → Sel)
    (accepts : List Req) (nf nf' : Option String)
    (sf : Option Scheme) (mv : Option MaxV) :
    custom_payment_selector defaultSel accepts nf sf mv
        = defaultSel accepts "base" sf mv
      ∧ custom_payment_selector defaultSel accepts nf sf mv
        = custom_payment_selector defaultSel accepts nf' sf mv :=
  ⟨rfl, rfl⟩

/-- C2, counterexample: running the second script as `toolzv4` with
`PRIVATE_KEY` absent prints the missing-key error and makes no network
request, but the process terminates with exit status 0, not 1 — the
claim's required exit status 1 fails on the second script. -/
theorem c2_missing_key_counterexample :
    "❌ Error: PRIVATE_KEY environment variable is required"
        ∈ (script2 envNone ["toolzv4"] jp0 dec0 "0xA" fetchNone).lines
      ∧ (script2 envNone ["toolzv4"] jp0 dec0 "0xA" fetchNone).networkCalled
          = false
      ∧ (script2 envNone ["toolzv4"] jp0 dec0 "0xA" fetchNone).exitCode = 0
      ∧ (script2 envNone ["toolzv4"] jp0 dec0 "0xA" fetchNone).exitCode ≠ 1 := by
  decide

/-- C2, amended: for the first script, every combination of absent
required variables (signing key, base URL, endpoint path) prints the
configuration error and exits with status 1 before any network request;
for the second script, an absent signing key (with a registered function
selected) prints the missing-key error and makes no network request, but
the process terminates normally with exit status 0. -/
theorem c2_amended_missing_vars_fail_fast (env1 env2 : ScriptEnv)
    (jp : JsonPretty) (dec : SettlementDecoder) (addr : String)
    (fetch : FetchResult) (args : List String) (fn : String)
    (params : List (String × String))
    (h1 : env1.private_key = none ∨ env1.resource_server_url = none
        ∨ env1.endpoint_path = none)
    (h2 : env2.private_key = none)
    (hok : parse_args env2.function_name args = .ok (fn, params))
    (hknown : (configLookup fn).isSome) :
    ((script1 env1 jp dec addr fetch).exitCode = 1
      ∧ (script1 env1 jp dec addr fetch).lines
          = ["Error: Missing required environment variables"]
      ∧ (script1 env1 jp dec addr fetch).networkCalled = false)
    ∧ ((script2 env2 args jp dec addr fetch).exitCode = 0
      ∧ "❌ Error: PRIVATE_KEY environment variable is required"
          ∈ (script2 env2 args jp dec addr fetch).lines
      ∧ (script2 env2 args jp dec addr fetch).networkCalled = false) := by
  constructor
  · have hcfg : configOk env1 = false := by
      rcases h1 with h | h | h <;> simp [configOk, h, pyTruthy]
    simp [script1, hcfg]
  · obtain ⟨cfg, hcfg⟩ := Option.isSome_iff_exists.mp hknown
    simp [script2, hok, test_function, hcfg, h2, pyTruthy]

/-- C2, amended, witness: instantiated at the empty environment, the
argument list `["toolzv4"]` and the registered function `toolzv4`. -/
theorem c2_amended_missing_vars_fail_fast_witness :
    ((script1 envNone jp0 dec0 "0xA" fetchNone).exitCode = 1
      ∧ (script1 envNone jp0 dec0 "0xA" fetchNone).lines
          = ["Error: Missing required environment variables"]
      ∧ (script1 envNone jp0 dec0 "0xA" fetchNone).networkCalled = false)
    ∧ ((script2 envNone ["toolzv4"] jp0 dec0 "0xA" fetchNone).exitCode = 0
      ∧ "❌ Error: PRIVATE_KEY environment variable is required"
          ∈ (script2 envNone ["toolzv4"] jp0 dec0 "0xA" fetchNone).lines
      ∧ (script2 envNone ["toolzv4"] jp0 dec0 "0xA" fetchNone).networkCalled
          = false) :=
  c2_amended_missing_vars_fail_fast envNone envNone jp0 dec0 "0xA" fetchNone
    ["toolzv4"] "toolzv4" [] (Or.inl rfl) rfl (by decide) (by decide)

/-- C3, counterexample: a 402 response that carries an
`X-Payment-Response` header still gets the settlement confirmation block
in the report (the settlement section tests only header presence, never
the status code), refuting the claim that a 402 never prints one. -/
theorem c3_402_with_header_counterexample :
    r402settle.status_code = 402
    ∧ "   This means payment was not processed correctly"
        ∈ mainTryBody jp0 dec0 "/f" "https://h" "0xA" (.ok r402settle)
    ∧ "✅ Payment Settlement Confirmed:"
        ∈ mainTryBody jp0 dec0 "/f" "https://h" "0xA" (.ok r402settle) := by
  refine ⟨rfl, ?_, ?_⟩ <;>
    simp [mainTryBody, responseReport, r402settle, classificationReport,
      settlementSection, headerGet, dec0, settlementLines, headersReport,
      bodyReport, jp0, preRequestLines, noSettlementLines, headerShown,
      strLower, strContains, containsCh, isPrefixCh, lowerCh, headerLine]

/-- C3, amended: for every 402 response the report states payment was
not processed correctly; the settlement confirmation block is produced
exactly when an `X-Payment-Response` header is present and decodes — in
particular a 402 response without that header gets the no-settlement
lines and no confirmation block. -/
theorem c3_amended_402_report (jp : JsonPretty) (dec : SettlementDecoder)
    (ep bu ad : String) (r : HttpResponse) (h : r.status_code = 402) :
    "   This means payment was not processed correctly"
        ∈ mainTryBody jp dec ep bu ad (.ok r)
    ∧ (headerGet r.headers "X-Payment-Response" = none →
        settlementSection dec r.headers = .ok noSettlementLines)
    ∧ ∀ v pr, headerGet r.headers "X-Payment-Response" = some v →
        dec v = .ok pr →
        settlementSection dec r.headers = .ok (settlementLines pr) := by
  refine ⟨?_, ?_, ?_⟩
  · simp [mainTryBody, responseReport, classificationReport, h]
  · intro hnone
    simp [settlementSection, hnone]
  · intro v pr hv hdec
    simp [settlementSection, hv, hdec]

/-- C3, amended, witness: instantiated at a 402 response without a
settlement header. -/
theorem c3_amended_402_report_witness :
    "   This means payment was not processed correctly"
        ∈ mainTryBody jp0 dec0 "/f" "https://h" "0xA" (.ok r402plain)
    ∧ (headerGet r402plain.headers "X-Payment-Response" = none →
        settlementSection dec0 r402plain.headers = .ok noSettlementLines)
    ∧ ∀ v pr, headerGet r402plain.headers "X-Payment-Response" = some v →
        dec0 v = .ok pr →
        settlementSection dec0 r402plain.headers
          = .ok (settlementLines pr) :=
  c3_amended_402_report jp0 dec0 "/f" "https://h" "0xA" r402plain rfl

/-- C4, counterexample: the header `max-age` neither contains
`"payment"` nor starts with `"x-"`, yet its line is echoed in the report
— the code tests substring containment of `"x-"`, not a prefix. -/
theorem c4_substring_counterexample :
    headersReport [("max-age", "1")] = ["   max-age: 1"]
    ∧ isPrefixCh "x-".data (strLower "max-age").data = false
    ∧ strContains (strLower "max-age") "payment" = false := by
  decide

/-- C4, amended: the report echoes exactly those headers whose
lowercased name contains `"payment"` or contains `"x-"` (as a substring,
anywhere in the name), and a displayed value longer than 100 characters
is shown as its first 100 characters followed by `"..."`. -/
theorem c4_amended_header_filter (hs : Headers) :
    headersReport hs
      = (hs.filter (fun kv => headerShown kv.fst)).map
          (fun kv => headerLine kv.fst kv.snd)
    ∧ (∀ k, headerShown k
        = (strContains (strLower k) "payment" || strContains (strLower k) "x-"))
    ∧ ∀ k v, 100 < v.length →
        headerLine k v = "   " ++ k ++ ": " ++ v.take 100 ++ "..." := by
  refine ⟨?_, fun k => rfl, fun k v hlen => ?_⟩
  · induction hs with
    | nil => rfl
    | cons kv rest ih =>
        obtain ⟨k, v⟩ := kv
        by_cases hk : headerShown k = true <;>
          simp [headersReport, hk, ih, List.filter]
  · simp [headerLine, hlen]

/-- C4, amended, witness: the truncation branch evaluated at a
101-character value. -/
theorem c4_amended_header_filter_witness :
    headerLine "X-Payment" v101
      = "   " ++ "X-Payment" ++ ": " ++ v101.take 100 ++ "..." :=
  (c4_amended_header_filter []).2.2 "X-Payment" v101 (by decide)

/-- C5: invoking the second script as `toolzv4 target=1.2.3.4` parses to
the function `toolzv4` with the single override, merges the defaults to
`target=1.2.3.4, count=4, timeout=5000` (defaults retained, override in
place, registry key order), URL-encodes the merged mapping onto the path
template, and the resulting endpoint line appears in the run's output. -/
theorem c5_toolzv4_override_path :
    parse_args none ["toolzv4", "target=1.2.3.4"]
      = .ok ("toolzv4", [("target", "1.2.3.4")])
    ∧ (configLookup "toolzv4").map
        (fun c => dictMerge c.default_params [("target", "1.2.3.4")])
      = some [("target", "1.2.3.4"), ("count", "4"), ("timeout", "5000")]
    ∧ buildPath "toolzv4"
        [("target", "1.2.3.4"), ("count", "4"), ("timeout", "5000")]
      = "/functions/v1/toolzv4?target=1.2.3.4&count=4&timeout=5000"
    ∧ "🌐 Endpoint: /functions/v1/toolzv4?target=1.2.3.4&count=4&timeout=5000"
        ∈ (script2 envWithKey ["toolzv4", "target=1.2.3.4"] jp0 dec0 "0xA"
            fetchNone).lines := by
  decide

/-- C6: with complete configuration, every exception of the
request/response cycle — the request itself raising, or settlement
decoding raising while the response is handled — is caught at the top
level: its message and the stack trace are printed and the process
terminates normally with exit status 0 instead of propagating. -/
theorem c6_exceptions_swallowed (env : ScriptEnv) (jp : JsonPretty)
    (dec : SettlementDecoder) (addr e : String) (r : HttpResponse)
    (v : String)
    (hcfg : configOk env = true)
    (hv : headerGet r.headers "X-Payment-Response" = some v)
    (hdec : dec v = .error e) :
    ((script1 env jp dec addr (.error e)).exitCode = 0
      ∧ ("❌ Error occurred: " ++ e)
          ∈ (script1 env jp dec addr (.error e)).lines
      ∧ "<traceback.print_exc()>"
          ∈ (script1 env jp dec addr (.error e)).lines)
    ∧ ((script1 env jp dec addr (.ok r)).exitCode = 0
      ∧ ("❌ Error occurred: " ++ e)
          ∈ (script1 env jp dec addr (.ok r)).lines) := by
  refine ⟨⟨?_, ?_, ?_⟩, ?_, ?_⟩ <;>
    simp [script1, hcfg, mainTryBody, errorLines, responseReport,
      settlementSection, hv, hdec]

/-- C6, witness: instantiated at a fully configured environment, a
raising request, and a raising decoder on a response that carries a
settlement header. -/
theorem c6_exceptions_swallowed_witness :
    ((script1 envAll jp0 decBoom "0xA" (.error "boom")).exitCode = 0
      ∧ ("❌ Error occurred: " ++ "boom")
          ∈ (script1 envAll jp0 decBoom "0xA" (.error "boom")).lines
      ∧ "<traceback.print_exc()>"
          ∈ (script1 envAll jp0 decBoom "0xA" (.error "boom")).lines)
    ∧ ((script1 envAll jp0 decBoom "0xA" (.ok r200settle)).exitCode = 0
      ∧ ("❌ Error occurred: " ++ "boom")
          ∈ (script1 envAll jp0 decBoom "0xA" (.ok r200settle)).lines) :=
  c6_exceptions_swallowed envAll jp0 decBoom "0xA" "boom" r200settle "blob"
    rfl (by decide) rfl

/-- C7: the outcome classification depends on the final status code
alone: the report's classification block is the verified block exactly
for status 200, the failed-negotiation block exactly for status 402, and
the single unexpected-status line in every other case, so exactly one of
the three classifications is printed. -/
theorem c7_classification_by_status (s : Nat) :
    (classificationReport s = classificationReport 200
      ∨ classificationReport s = classificationReport 402
      ∨ classificationReport s = ["⚠️  Unexpected status code: " ++ toString s])
    ∧ (classificationReport s = classificationReport 200 ↔ s = 200)
    ∧ (classificationReport s = classificationReport 402 ↔ s = 402)
    ∧ (classificationReport s = ["⚠️  Unexpected status code: " ++ toString s]
        ↔ (s ≠ 200 ∧ s ≠ 402)) := by
  by_cases h200 : s = 200
  · subst h200; decide
  · by_cases h402 : s = 402
    · subst h402; decide
    · have hcr : classificationReport s
          = ["⚠️  Unexpected status code: " ++ toString s] := by
        simp [classificationReport, h200, h402]
      rw [hcr]
      refine ⟨Or.inr (Or.inr rfl), ?_, ?_, ?_⟩
      · exact ⟨fun h => absurd h (by simp [classificationReport]),
          fun h => absurd h h200⟩
      · exact ⟨fun h => absurd h (by simp [classificationReport]),
          fun h => absurd h h402⟩
      · simp [h200, h402]

/-- C8: for every 200 response carrying a settlement header that the
external decoder accepts, the settlement confirmation block displays the
transaction, network and payer fields of the decoded structure, each
replaced by `"N/A"` when absent, and the transaction line appears in the
full report of the first script. -/
theorem c8_settlement_fields (jp : JsonPretty) (dec : SettlementDecoder)
    (ep bu ad : String) (r : HttpResponse) (v : String)
    (pr : PaymentResponse)
    (h200 : r.status_code = 200)
    (hv : headerGet r.headers "X-Payment-Response" = some v)
    (hdec : dec v = .ok pr) :
    settlementSection dec r.headers
      = .ok ["",
             "✅ Payment Settlement Confirmed:",
             "   Transaction: " ++ pr.transaction.getD "N/A",
             "   Network: " ++ pr.network.getD "N/A",
             "   Payer: " ++ pr.payer.getD "N/A"]
    ∧ ("   Transaction: " ++ pr.transaction.getD "N/A")
        ∈ mainTryBody jp dec ep bu ad (.ok r) := by
  have hs : settlementSection dec r.headers = .ok (settlementLines pr) := by
    simp [settlementSection, hv, hdec]
  refine ⟨by simpa [settlementLines] using hs, ?_⟩
  simp [mainTryBody, responseReport, hs, settlementLines]

/-- C8, witness: instantiated at a 200 response with a settlement header
whose decoded structure has an absent `network` field, displayed as
`N/A`. -/
theorem c8_settlement_fields_witness :
    settlementSection dec0 r200settle.headers
      = .ok ["",
             "✅ Payment Settlement Confirmed:",
             "   Transaction: " ++ (some "0xtx").getD "N/A",
             "   Network: " ++ (none : Option String).getD "N/A",
             "   Payer: " ++ (some "0xpayer").getD "N/A"]
    ∧ ("   Transaction: " ++ (some "0xtx").getD "N/A")
        ∈ mainTryBody jp0 dec0 "/f" "https://h" "0xA" (.ok r200settle) :=
  c8_settlement_fields jp0 dec0 "/f" "https://h" "0xA" r200settle "blob"
    { transaction := some "0xtx", network := none, payer := some "0xpayer" }
    rfl (by decide) rfl

/-- C9: invoking the second script with no command-line arguments makes
`parse_args` print the usage message and the full registry — every
registered function name with its description and its default parameter
dict — and exit with status 1 before any network request, whatever the
environment holds. -/
theorem c9_no_args_usage (env : ScriptEnv) (jp : JsonPretty)
    (dec : SettlementDecoder) (addr : String) (fetch : FetchResult) :
    script2 env [] jp dec addr fetch
      = { lines := usageLines, exitCode := 1, networkCalled := false }
    ∧ ∀ kv, kv ∈ FUNCTION_CONFIGS →
        ("  " ++ kv.fst ++ ": " ++ kv.snd.description) ∈ usageLines
        ∧ ("    Default params: " ++ dictRepr kv.snd.default_params)
            ∈ usageLines := by
  refine ⟨rfl, ?_⟩
  intro kv hkv
  fin_cases hkv <;> exact ⟨by decide, by decide⟩

/-- C9, witness: instantiated at a concrete environment and the first
registry entry. -/
theorem c9_no_args_usage_witness :
    script2 envWithKey [] jp0 dec0 "0xA" fetchNone
      = { lines := usageLines, exitCode := 1, networkCalled := false }
    ∧ ("  toolzv4: IPv4 Network Connectivity Testing Tool" ∈ usageLines
      ∧ ("    Default params: "
          ++ dictRepr [("target", "8.8.8.8"), ("count", "4"),
                       ("timeout", "5000")]) ∈ usageLines) :=
  ⟨(c9_no_args_usage envWithKey jp0 dec0 "0xA" fetchNone).1,
   (c9_no_args_usage envWithKey jp0 dec0 "0xA" fetchNone).2
     ("toolzv4",
      { description := "IPv4 Network Connectivity Testing Tool",
        default_params :=
          [("target", "8.8.8.8"), ("count", "4"), ("timeout", "5000")] })
     (by decide)⟩

/-- C10: with the `FUNCTION_NAME` override set to a name outside the
registry and at least one command-line token, `parse_args` accepts the
invocation (every token is parsed as a `key=value` parameter), the run
prints the unknown-function error inside `test_function`, makes no
network request, and the process terminates with exit status 0 — unlike
the override-free invocation of an unknown first token, which exits with
status 1. -/
theorem c10_override_unknown_function (env : ScriptEnv) (jp : JsonPretty)
    (dec : SettlementDecoder) (addr : String) (fetch : FetchResult)
    (f a0 : String) (rest : List String)
    (henv : env.function_name = some f) (hf : f ≠ "")
    (hunk : configLookup f = none) :
    parse_args env.function_name (a0 :: rest)
      = .ok (f, parseParams (a0 :: rest))
    ∧ (script2 env (a0 :: rest) jp dec addr fetch).exitCode = 0
    ∧ ("❌ Unknown function: " ++ f)
        ∈ (script2 env (a0 :: rest) jp dec addr fetch).lines
    ∧ (script2 env (a0 :: rest) jp dec addr fetch).networkCalled = false
    ∧ ∀ env' : ScriptEnv, env'.function_name = none →
        configLookup a0 = none →
        (script2 env' (a0 :: rest) jp dec addr fetch).exitCode = 1 := by
  have htru : pyTruthy (some f) = true := by simp [pyTruthy, hf]
  have hp : parse_args env.function_name (a0 :: rest)
      = .ok (f, parseParams (a0 :: rest)) := by
    simp [parse_args, henv, htru, hunk]
  refine ⟨hp, ?_, ?_, ?_, ?_⟩
  · simp [script2, hp, test_function, hunk]
  · simp [script2, hp, test_function, hunk]
  · simp [script2, hp, test_function, hunk]
  · intro env' h1 h2
    simp [script2, parse_args, h1, pyTruthy, h2]

/-- C10, witness: instantiated at the override `bogus` and the single
token `x=1`, contrasted with the override-free run of the same token
list headed by an unregistered name. -/
theorem c10_override_unknown_function_witness :
    parse_args envOverrideBogus.function_name ["x=1"]
      = .ok ("bogus", parseParams ["x=1"])
    ∧ (script2 envOverrideBogus ["x=1"] jp0 dec0 "0xA" fetchNone).exitCode = 0
    ∧ ("❌ Unknown function: " ++ "bogus")
        ∈ (script2 envOverrideBogus ["x=1"] jp0 dec0 "0xA" fetchNone).lines
    ∧ (script2 envOverrideBogus ["x=1"] jp0 dec0 "0xA"
        fetchNone).networkCalled = false
    ∧ (script2 envNone ["x=1"] jp0 dec0 "0xA" fetchNone).exitCode = 1 := by
  have h := c10_override_unknown_function envOverrideBogus jp0 dec0 "0xA"
    fetchNone "bogus" "x=1" [] rfl (by decide) (by decide)
  exact ⟨h.1, h.2.1, h.2.2.1, h.2.2.2.1, h.2.2.2.2 envNone rfl (by decide)⟩
